import Mathlib

/-!
Verification of the KinoPoisk frontend core: the persistent token store
(`src/frontend/src/utils/storage.ts` and the cookie-backed revision), the
HTTP gateway interceptors (`src/frontend/src/services/api/api.client.ts`),
the auth service and movie service adapters
(`src/frontend/src/services/movie.service.ts`), and the auth session
controller (`src/frontend/src/contexts/AuthContext.tsx`).

Stateful TypeScript is embedded as explicit state passing: the browser
storage medium is an association list, the network is an environment of
oracles giving each call's transport outcome, and each interceptor or
controller operation is a pure function from state and environment to the
new state plus the observable effects (redirects, issued requests, the
value returned or the error rejected with).
-/

/-- JSON values, the payload type of the host's JSON.stringify / JSON.parse.
Domain entities (movies, profiles) are opaque payloads to the core, so they
are represented as `Json`. -/
inductive Json where
  | null : Json
  | bool (b : Bool) : Json
  | num (n : Int) : Json
  | str (s : String) : Json
  | arr (elems : List Json) : Json
  | obj (fields : List (String × Json)) : Json

/-- A raw stored payload string at the JSON library boundary: either the
serialization of a JSON value (JSON.parse recovers the value), or a
malformed string (JSON.parse throws, which the store catches). -/
inductive RawPayload where
  | wellFormed (j : Json) : RawPayload
  | malformed (s : String) : RawPayload

/-- JSON.parse at the library boundary: inverse of stringify on well-formed
payloads, failure (caught by the callers) on malformed ones. -/
def jsonParse : RawPayload → Option Json
  | RawPayload.wellFormed j => some j
  | RawPayload.malformed _ => none

/-- The namespace tag `STORAGE_PREFIX = 'kinopoisk_'` applied to every key
(storage.ts line 1, part_012 line 4). -/
def nsKey (key : String) : String := "kinopoisk_" ++ key

/-- Key `TOKEN_KEYS.ACCESS` (storage.ts line 44). -/
def accessKey : String := "access_token"

/-- Key `TOKEN_KEYS.REFRESH` (storage.ts line 45). -/
def refreshKey : String := "refresh_token"

/-! ## localStorage-backed store (src/frontend/src/utils/storage.ts)

The medium maps full keys to stored strings. The gateway and auth service
only ever store string tokens, whose JSON serialization round-trips, so the
stored value is kept as the string itself. -/

abbrev LocalStorage := List (String × String)

def lsGetItem (ls : LocalStorage) (k : String) : Option String :=
  (ls.find? (fun e => e.1 == k)).map (fun e => e.2)

def lsSetItem (ls : LocalStorage) (k v : String) : LocalStorage :=
  (k, v) :: ls.filter (fun e => e.1 != k)

def lsRemoveItem (ls : LocalStorage) (k : String) : LocalStorage :=
  ls.filter (fun e => e.1 != k)

/-- Embeds `storage.get(key)` of storage.ts: read the namespaced item. -/
def storageGet (ls : LocalStorage) (key : String) : Option String :=
  lsGetItem ls (nsKey key)

/-- Embeds `storage.set(key, value)` of storage.ts. Note: this revision declares
no ttl parameter; call sites that pass a third ttl argument have it
silently dropped by JavaScript. -/
def storageSet (ls : LocalStorage) (key v : String) : LocalStorage :=
  lsSetItem ls (nsKey key) v

/-- Embeds `storage.remove(key)` of storage.ts. -/
def storageRemove (ls : LocalStorage) (key : String) : LocalStorage :=
  lsRemoveItem ls (nsKey key)

/-! ## Cookie-backed store with ttl (src/unnamed/part_012, cookie.utils.ts) -/

/-- One browser cookie: name, raw string payload, absolute expiry instant
(`expires = Date.now() + maxAge`, cookie.utils.ts buildCookie). -/
structure Cookie where
  name : String
  value : RawPayload
  expiresAt : Nat

abbrev CookieJar := List Cookie

/-- Embeds `cookieManager.set`: `document.cookie = buildCookie(...)` replaces any
cookie of the same name with one expiring at `now + maxAge`. -/
def cookieSet (jar : CookieJar) (name : String) (v : RawPayload) (expiresAt : Nat) : CookieJar :=
  { name := name, value := v, expiresAt := expiresAt } :: jar.filter (fun c => c.name != name)

/-- Embeds `cookieManager.get` at instant `now`: the browser only surfaces a cookie
while `now` is before its expiry. -/
def cookieGet (jar : CookieJar) (name : String) (now : Nat) : Option RawPayload :=
  match jar.find? (fun c => c.name == name) with
  | some c => if now < c.expiresAt then some c.value else none
  | none => none

/-- Embeds `cookieManager.remove`: rewrite the cookie with `maxAge: -1`, which the
browser drops immediately. -/
def cookieRemove (jar : CookieJar) (name : String) : CookieJar :=
  jar.filter (fun c => c.name != name)

/-- Embeds `storage.set(key, value, maxAge)` of part_012: store
`JSON.stringify(value)` under the namespaced name as a cookie with
`maxAge` as its ttl. -/
def cstorageSet (jar : CookieJar) (key : String) (v : Json) (ttl now : Nat) : CookieJar :=
  cookieSet jar (nsKey key) (RawPayload.wellFormed v) (now + ttl)

/-- Embeds `storage.get(key)` of part_012 at instant `now`: read the namespaced
cookie and JSON.parse it; a parse failure is caught and yields null. -/
def cstorageGet (jar : CookieJar) (key : String) (now : Nat) : Option Json :=
  match cookieGet jar (nsKey key) now with
  | some raw => jsonParse raw
  | none => none

/-- Embeds `storage.remove(key)` of part_012. -/
def cstorageRemove (jar : CookieJar) (key : String) : CookieJar :=
  cookieRemove jar (nsKey key)

/-! ## HTTP gateway: api.client.ts interceptors -/

/-- An outbound request as the interceptors see it: target URL, the
`Authorization` header if any, and the `_retry` marker the response
interceptor mutates onto the config (api.client.ts line 42). -/
structure Request where
  url : String
  authHeader : Option String
  retryFlag : Bool
deriving DecidableEq

/-- Substring test, the embedding of `String.prototype.includes`. -/
def containsSub (s pat : String) : Bool :=
  (List.range (s.data.length + 1)).any
    (fun i => (s.data.drop i).take pat.data.length == pat.data)

/-- Embeds `isAuthEndpoint` (api.client.ts lines 22-23): the URL mentions
`/auth/login` or `/auth/register`. -/
def isAuthEndpoint (url : String) : Bool :=
  containsSub url "/auth/login" || containsSub url "/auth/register"

/-- The request interceptor (api.client.ts lines 20-33): unless the target
is a login/registration endpoint, attach the stored access token as a
bearer header when present. -/
def requestInterceptor (ls : LocalStorage) (config : Request) : Request :=
  if isAuthEndpoint config.url then config
  else
    match storageGet ls accessKey with
    | some token => { config with authHeader := some ("Bearer " ++ token) }
    | none => config

/-- The normalized error shape `ApiError` (api.client.ts lines 71-75). -/
structure ApiError where
  message : String
  errors : Option (List (String × List String))
  status : Option Nat
deriving DecidableEq

/-- A transport-level failure as axios rejects with: optional response
status, optional `data.message` and `data.errors` from the response body,
the transport `error.message`, and the request config it belonged to. -/
structure AxiosError where
  status : Option Nat
  dataMessage : Option String
  dataErrors : Option (List (String × List String))
  errMessage : String
  config : Request
deriving DecidableEq

/-- Embeds `data?.message || error.message || 'Произошла ошибка'`: first string
that is present and non-empty (JS falsiness of the empty string). -/
def fallbackMessage (dataMessage : Option String) (errMessage : String) : String :=
  match dataMessage with
  | some m => if m = "" then (if errMessage = "" then "Произошла ошибка" else errMessage) else m
  | none => if errMessage = "" then "Произошла ошибка" else errMessage

/-- Error normalization (api.client.ts lines 71-75). -/
def normalizeError (e : AxiosError) : ApiError :=
  { message := fallbackMessage e.dataMessage e.errMessage
    errors := e.dataErrors
    status := e.status }

/-- Final result of one logical call: a successful response body, or the
normalized failure the promise is rejected with. -/
inductive Outcome where
  | ok (body : Json) : Outcome
  | err (e : ApiError) : Outcome

/-- Network environment of the 401 handler: the outcome of the dedicated
refresh POST (given the refresh token it carries; a failure is already
normalized by the refresh call's own trip through the interceptor), and
the final outcome of resubmitting a request through `this.client(...)`. -/
structure Env where
  refreshOutcome : String → Except ApiError String
  resendOutcome : Request → Outcome

/-- URL of the dedicated refresh call (api.client.ts line 50). -/
def refreshPath : String := "/auth/token/refresh/"

/-- ttl argument passed to `storage.set` for a refreshed access token
(api.client.ts line 53); the localStorage store drops it. -/
def accessTtlMs : Nat := 60 * 60 * 1000

/-- Everything observable about one run of the response-error interceptor:
the store left behind, whether `window.location.href = '/login'` fired,
the settled outcome, the refresh request as dispatched (through the
request interceptor), the resubmitted request if any, and how many refresh
calls / resubmissions were issued. -/
structure HandlerResult where
  store : LocalStorage
  redirectedToLogin : Bool
  outcome : Outcome
  refreshRequestSent : Option Request
  resubmittedRequest : Option Request
  refreshCalls : Nat
  resubmits : Nat

/-- The response-error interceptor (api.client.ts lines 41-78). On a first
401: mark the config retried, read the refresh token; if present, POST the
refresh call (itself built through the request interceptor, so it may carry
the stale bearer); on refresh success persist the new access token,
reattach it and resubmit once; on refresh failure (the caught error is
discarded) or missing refresh token, clear both tokens and redirect to
/login, then fall through to reject with the normalized ORIGINAL error.
Any other failure, including a 401 on an already-retried config, just
rejects with the normalized original error. -/
def responseErrorHandler (env : Env) (ls : LocalStorage) (error : AxiosError) : HandlerResult :=
  let originalRequest := error.config
  if error.status = some 401 ∧ originalRequest.retryFlag = false then
    let retried : Request := { originalRequest with retryFlag := true }
    match storageGet ls refreshKey with
    | some refreshToken =>
      let refreshReq := requestInterceptor ls
        { url := refreshPath, authHeader := none, retryFlag := false }
      match env.refreshOutcome refreshToken with
      | Except.ok access =>
        let ls1 := storageSet ls accessKey access
        let reattached : Request := { retried with authHeader := some ("Bearer " ++ access) }
        let resent := requestInterceptor ls1 reattached
        { store := ls1
          redirectedToLogin := false
          outcome := env.resendOutcome resent
          refreshRequestSent := some refreshReq
          resubmittedRequest := some resent
          refreshCalls := 1
          resubmits := 1 }
      | Except.error _ =>
        let ls1 := storageRemove (storageRemove ls accessKey) refreshKey
        { store := ls1
          redirectedToLogin := true
          outcome := Outcome.err (normalizeError error)
          refreshRequestSent := some refreshReq
          resubmittedRequest := none
          refreshCalls := 1
          resubmits := 0 }
    | none =>
      let ls1 := storageRemove (storageRemove ls accessKey) refreshKey
      { store := ls1
        redirectedToLogin := true
        outcome := Outcome.err (normalizeError error)
        refreshRequestSent := none
        resubmittedRequest := none
        refreshCalls := 0
        resubmits := 0 }
  else
    { store := ls
      redirectedToLogin := false
      outcome := Outcome.err (normalizeError error)
      refreshRequestSent := none
      resubmittedRequest := none
      refreshCalls := 0
      resubmits := 0 }

/-! ## Movie service adapter (movie.service.ts, normalizing revision / part_009) -/

/-- A movie is an opaque payload to the core. -/
abbrev Movie := Json

/-- The normalized paginated result `{count, next, previous, results}`
returned by `getMovies`. `none` models JSON null for the cursors. -/
structure Paginated where
  count : Nat
  next : Option String
  previous : Option String
  results : List Movie

/-- The decoded response body a list endpoint may produce: a bare array, or
an envelope whose fields may each be absent/null (`Option` models both,
as `??` treats undefined and null alike). -/
inductive MoviesPayload where
  | bare (items : List Movie) : MoviesPayload
  | envelope (count : Option Nat) (next : Option String)
      (previous : Option String) (results : Option (List Movie)) : MoviesPayload

/-- Response reshaping of `movieService.getMovies` (movie.service.ts lines
40-56): a bare array becomes `{count: length, next: null, previous: null,
results: array}`; an envelope passes through with `??`-style defaults. -/
def getMovies (data : MoviesPayload) : Paginated :=
  match data with
  | MoviesPayload.bare items =>
    { count := items.length, next := none, previous := none, results := items }
  | MoviesPayload.envelope count next previous results =>
    { count := match count with
        | some c => c
        | none => match results with
          | some rs => rs.length
          | none => 0
      next := next
      previous := previous
      results := match results with
        | some rs => rs
        | none => [] }

/-! ## Auth service (movie.service.ts authService revision, lines 82-153)
and auth session controller (AuthContext.tsx) -/

/-- A user profile: identity and contact fields, opaque to the session
logic beyond being present or absent. -/
structure UserProfile where
  id : Nat
  email : String
deriving DecidableEq

/-- Token pair returned by the login endpoint (top-level `access` /
`refresh` fields of the response body). -/
structure AuthTokens where
  access : String
  refresh : String
deriving DecidableEq

/-- Decoded register response: created user plus issued token pair. -/
structure RegisterResponse where
  user : UserProfile
  access : String
  refresh : String

/-- Network environment of the session controller: the decoded outcome of
each auth endpoint call as it crosses the gateway boundary (failures
already normalized). -/
structure AuthEnv where
  loginResult : Except ApiError AuthTokens
  registerResult : Except ApiError RegisterResponse
  profileResult : Except ApiError UserProfile

/-- Embeds `authService.login` (movie.service.ts lines 83-99): on success persist
both tokens (the ttl arguments are dropped by the localStorage store) and
return the pair; on failure the normalized error propagates. -/
def authServiceLogin (env : AuthEnv) (ls : LocalStorage) :
    LocalStorage × Except ApiError AuthTokens :=
  match env.loginResult with
  | Except.ok t =>
    (storageSet (storageSet ls accessKey t.access) refreshKey t.refresh, Except.ok t)
  | Except.error e => (ls, Except.error e)

/-- Embeds `authService.register` (movie.service.ts lines 101-115): on success
persist both tokens and return the created user. -/
def authServiceRegister (env : AuthEnv) (ls : LocalStorage) :
    LocalStorage × Except ApiError UserProfile :=
  match env.registerResult with
  | Except.ok r =>
    (storageSet (storageSet ls accessKey r.access) refreshKey r.refresh, Except.ok r.user)
  | Except.error e => (ls, Except.error e)

/-- Embeds `authService.logout` (movie.service.ts lines 117-127): a best-effort
POST whose failure is caught and only logged; the `finally` block removes
both token keys; the returned promise always resolves. -/
def authServiceLogout (serverOutcome : Except ApiError Unit) (ls : LocalStorage) :
    LocalStorage × Except ApiError Unit :=
  match serverOutcome with
  | Except.ok _ => (storageRemove (storageRemove ls accessKey) refreshKey, Except.ok ())
  | Except.error _ => (storageRemove (storageRemove ls accessKey) refreshKey, Except.ok ())

/-- Embeds `authService.isAuthenticated` (movie.service.ts lines 146-148): a
stored access token exists. -/
def authServiceIsAuthenticated (ls : LocalStorage) : Bool :=
  (storageGet ls accessKey).isSome

/-- Session state owned by `AuthProvider` (AuthContext.tsx lines 22-23):
`useState<User | null>(null)` and `useState(true)` for isLoading. -/
structure SessionState where
  user : Option UserProfile
  isLoading : Bool
deriving DecidableEq

/-- The state `AuthProvider` mounts with. -/
def initialSession : SessionState := { user := none, isLoading := true }

/-- Embeds `loadUser` (AuthContext.tsx lines 29-40): if a token is stored, fetch
the profile, setting the user on success and clearing it on failure; in
either case end with isLoading false. Without a token the user is left
untouched. -/
def loadUser (env : AuthEnv) (ls : LocalStorage) (st : SessionState) : SessionState :=
  if authServiceIsAuthenticated ls then
    match env.profileResult with
    | Except.ok p => { user := some p, isLoading := false }
    | Except.error _ => { user := none, isLoading := false }
  else { user := st.user, isLoading := false }

/-- Embeds `login` of `AuthProvider` (AuthContext.tsx lines 42-50): set loading,
call the auth service, on success load the profile; `finally` clears
loading; a service failure propagates past `loadUser`. -/
def ctxLogin (env : AuthEnv) (ls : LocalStorage) (st : SessionState) :
    LocalStorage × SessionState :=
  match authServiceLogin env ls with
  | (ls1, Except.ok _) =>
    let st1 := loadUser env ls1 { user := st.user, isLoading := true }
    (ls1, { user := st1.user, isLoading := false })
  | (ls1, Except.error _) => (ls1, { user := st.user, isLoading := false })

/-- Embeds `register` of `AuthProvider` (AuthContext.tsx lines 52-61): call the
auth service, then auto-login with the same credentials. -/
def ctxRegister (env : AuthEnv) (ls : LocalStorage) (st : SessionState) :
    LocalStorage × SessionState :=
  match authServiceRegister env ls with
  | (ls1, Except.ok _) =>
    let r := ctxLogin env ls1 { user := st.user, isLoading := true }
    (r.1, { user := r.2.user, isLoading := false })
  | (ls1, Except.error _) => (ls1, { user := st.user, isLoading := false })

/-- Embeds `logout` of `AuthProvider` (AuthContext.tsx lines 63-71): await the
always-resolving service logout, then clear the user; `finally` clears
loading. -/
def ctxLogout (serverOutcome : Except ApiError Unit) (ls : LocalStorage) (st : SessionState) :
    LocalStorage × SessionState :=
  match authServiceLogout serverOutcome ls with
  | (ls1, Except.ok _) => (ls1, { user := none, isLoading := false })
  | (ls1, Except.error _) => (ls1, { user := st.user, isLoading := false })

/-- Embeds `refreshProfile` of `AuthProvider` (AuthContext.tsx lines 73-78): only
when a token is stored, fetch the profile and set the user; a fetch
failure rejects past `setUser`, leaving the state untouched. -/
def ctxRefreshProfile (env : AuthEnv) (ls : LocalStorage) (st : SessionState) : SessionState :=
  if authServiceIsAuthenticated ls then
    match env.profileResult with
    | Except.ok p => { user := some p, isLoading := st.isLoading }
    | Except.error _ => st
  else st

/-- The operations a consumer can invoke on the session controller. -/
inductive AuthOp where
  | bootstrap : AuthOp
  | login : AuthOp
  | register : AuthOp
  | logout (serverOutcome : Except ApiError Unit) : AuthOp
  | refreshProfile : AuthOp

/-- One step of the session controller. -/
def applyOp (env : AuthEnv) (ls : LocalStorage) (st : SessionState) :
    AuthOp → LocalStorage × SessionState
  | AuthOp.bootstrap => (ls, loadUser env ls st)
  | AuthOp.login => ctxLogin env ls st
  | AuthOp.register => ctxRegister env ls st
  | AuthOp.logout o => ctxLogout o ls st
  | AuthOp.refreshProfile => (ls, ctxRefreshProfile env ls st)

/-- The context value handed to consumers (AuthContext.tsx lines 80-88):
`isAuthenticated` is derived as `!!user`. -/
structure ContextValue where
  user : Option UserProfile
  isAuthenticated : Bool
  isLoading : Bool

/-- Construction of the provider value (AuthContext.tsx lines 80-88). -/
def contextValue (st : SessionState) : ContextValue :=
  { user := st.user, isAuthenticated := st.user.isSome, isLoading := st.isLoading }

/-! ## Store lemmas -/

theorem lsGetItem_set_self (ls : LocalStorage) (k v : String) :
    lsGetItem (lsSetItem ls k v) k = some v := by
  simp [lsGetItem, lsSetItem, List.find?]

theorem lsGetItem_remove_self (ls : LocalStorage) (k : String) :
    lsGetItem (lsRemoveItem ls k) k = none := by
  unfold lsGetItem lsRemoveItem
  induction ls with
  | nil => rfl
  | cons e t ih =>
    rw [List.filter_cons]
    by_cases h : e.1 = k
    · rw [if_neg (by simp [h])]
      exact ih
    · rw [if_pos (by simp [h]), List.find?_cons, show (e.1 == k) = false by simp [h]]
      exact ih

theorem lsGetItem_remove_other (ls : LocalStorage) (k k' : String) (h : k ≠ k') :
    lsGetItem (lsRemoveItem ls k') k = lsGetItem ls k := by
  unfold lsGetItem lsRemoveItem
  induction ls with
  | nil => rfl
  | cons e t ih =>
    rw [List.filter_cons]
    by_cases he : e.1 = k'
    · have hb : (e.1 == k) = false := by
        simp [he]
        exact fun hk => h hk.symm
      rw [if_neg (by simp [he]), List.find?_cons, hb]
      exact ih
    · by_cases hek : e.1 = k
      · rw [if_pos (by simp [he]), List.find?_cons, List.find?_cons,
          show (e.1 == k) = true by simp [hek]]
      · rw [if_pos (by simp [he]), List.find?_cons, List.find?_cons,
          show (e.1 == k) = false by simp [hek]]
        exact ih

theorem storageGet_set_self (ls : LocalStorage) (key v : String) :
    storageGet (storageSet ls key v) key = some v :=
  lsGetItem_set_self ls (nsKey key) v

theorem nsKey_access_ne_refresh : nsKey accessKey ≠ nsKey refreshKey := by decide

/-- Clearing both token keys leaves the access key unreadable. -/
theorem storageGet_cleared_access (ls : LocalStorage) :
    storageGet (storageRemove (storageRemove ls accessKey) refreshKey) accessKey = none := by
  unfold storageGet storageRemove
  rw [lsGetItem_remove_other _ _ _ nsKey_access_ne_refresh]
  exact lsGetItem_remove_self ls (nsKey accessKey)

/-- Clearing both token keys leaves the refresh key unreadable. -/
theorem storageGet_cleared_refresh (ls : LocalStorage) :
    storageGet (storageRemove (storageRemove ls accessKey) refreshKey) refreshKey = none :=
  lsGetItem_remove_self _ (nsKey refreshKey)

/-! ## Interceptor lemmas -/

theorem requestInterceptor_url (ls : LocalStorage) (config : Request) :
    (requestInterceptor ls config).url = config.url := by
  unfold requestInterceptor
  split
  · rfl
  · cases storageGet ls accessKey <;> rfl

theorem requestInterceptor_retryFlag (ls : LocalStorage) (config : Request) :
    (requestInterceptor ls config).retryFlag = config.retryFlag := by
  unfold requestInterceptor
  split
  · rfl
  · cases storageGet ls accessKey <;> rfl

/-- When the store holds token `t` and the config already carries
`Bearer t`, the interceptor leaves the header at `Bearer t` whichever
branch it takes. -/
theorem requestInterceptor_authHeader_stable (ls : LocalStorage) (config : Request) (t : String)
    (hget : storageGet ls accessKey = some t)
    (hhdr : config.authHeader = some ("Bearer " ++ t)) :
    (requestInterceptor ls config).authHeader = some ("Bearer " ++ t) := by
  unfold requestInterceptor
  split
  · exact hhdr
  · rw [hget]

/-- A request whose config is already marked retried never triggers the
refresh branch: the handler is a plain normalize-and-reject. -/
theorem handler_terminal_of_retried (env : Env) (ls : LocalStorage) (e : AxiosError)
    (hretry : e.config.retryFlag = true) :
    responseErrorHandler env ls e =
      { store := ls
        redirectedToLogin := false
        outcome := Outcome.err (normalizeError e)
        refreshRequestSent := none
        resubmittedRequest := none
        refreshCalls := 0
        resubmits := 0 } := by
  unfold responseErrorHandler
  rw [if_neg]
  intro hand
  rw [hretry] at hand
  exact Bool.noConfusion hand.2

/-- Computation of the handler on a first 401 when a refresh token is
stored and the refresh call succeeds. -/
theorem handler_first401_refresh_ok (env : Env) (ls : LocalStorage) (e : AxiosError)
    (rt access : String)
    (h401 : e.status = some 401) (hretry : e.config.retryFlag = false)
    (href : storageGet ls refreshKey = some rt)
    (hok : env.refreshOutcome rt = Except.ok access) :
    responseErrorHandler env ls e =
      { store := storageSet ls accessKey access
        redirectedToLogin := false
        outcome := env.resendOutcome (requestInterceptor (storageSet ls accessKey access)
          { url := e.config.url, authHeader := some ("Bearer " ++ access), retryFlag := true })
        refreshRequestSent := some (requestInterceptor ls
          { url := refreshPath, authHeader := none, retryFlag := false })
        resubmittedRequest := some (requestInterceptor (storageSet ls accessKey access)
          { url := e.config.url, authHeader := some ("Bearer " ++ access), retryFlag := true })
        refreshCalls := 1
        resubmits := 1 } := by
  simp only [responseErrorHandler, href, hok]
  rw [if_pos ⟨h401, hretry⟩]

/-- Computation of the handler on a first 401 when a refresh token is
stored but the refresh call fails: both tokens cleared, redirect, and the
ORIGINAL error normalized and propagated. -/
theorem handler_first401_refresh_fail (env : Env) (ls : LocalStorage) (e : AxiosError)
    (rt : String) (re : ApiError)
    (h401 : e.status = some 401) (hretry : e.config.retryFlag = false)
    (href : storageGet ls refreshKey = some rt)
    (hfail : env.refreshOutcome rt = Except.error re) :
    responseErrorHandler env ls e =
      { store := storageRemove (storageRemove ls accessKey) refreshKey
        redirectedToLogin := true
        outcome := Outcome.err (normalizeError e)
        refreshRequestSent := some (requestInterceptor ls
          { url := refreshPath, authHeader := none, retryFlag := false })
        resubmittedRequest := none
        refreshCalls := 1
        resubmits := 0 } := by
  simp only [responseErrorHandler, href, hfail]
  rw [if_pos ⟨h401, hretry⟩]

/-- Computation of the handler on a first 401 when no refresh token is
stored: no refresh call, both tokens cleared, redirect, original error
normalized and propagated. -/
theorem handler_first401_no_refresh_token (env : Env) (ls : LocalStorage) (e : AxiosError)
    (h401 : e.status = some 401) (hretry : e.config.retryFlag = false)
    (hnone : storageGet ls refreshKey = none) :
    responseErrorHandler env ls e =
      { store := storageRemove (storageRemove ls accessKey) refreshKey
        redirectedToLogin := true
        outcome := Outcome.err (normalizeError e)
        refreshRequestSent := none
        resubmittedRequest := none
        refreshCalls := 0
        resubmits := 0 } := by
  simp only [responseErrorHandler, hnone]
  rw [if_pos ⟨h401, hretry⟩]

/-! ## Concrete sample inputs for witnesses and counterexamples -/

/-- Environment whose refresh call fails with a distinguishable normalized
error. -/
def envC1 : Env :=
  { refreshOutcome := fun _ =>
      Except.error { message := "refresh failed", errors := none, status := some 400 }
    resendOutcome := fun _ =>
      Outcome.err { message := "resend failed", errors := none, status := some 500 } }

/-- Environment whose refresh call succeeds with a fresh access token. -/
def envOK : Env :=
  { refreshOutcome := fun _ => Except.ok "newA"
    resendOutcome := fun req => Outcome.ok (Json.str req.url) }

/-- A store holding both a stale access token and a refresh token. -/
def lsTokens : LocalStorage :=
  [("kinopoisk_access_token", "staleA"), ("kinopoisk_refresh_token", "R1")]

/-- A store holding only a stale access token. -/
def lsAccessOnly : LocalStorage := [("kinopoisk_access_token", "staleA")]

/-- A 401 on a request already marked retried. -/
def errRetried : AxiosError :=
  { status := some 401
    dataMessage := some "original failure"
    dataErrors := none
    errMessage := "Request failed with status code 401"
    config := { url := "/movies/", authHeader := some "Bearer staleA", retryFlag := true } }

/-- A 401 on a request not yet retried. -/
def errFirst : AxiosError :=
  { status := some 401
    dataMessage := some "original failure"
    dataErrors := none
    errMessage := "Request failed with status code 401"
    config := { url := "/movies/", authHeader := some "Bearer staleA", retryFlag := false } }

/-- The normalized error `envC1`'s refresh call fails with. -/
def refreshErr : ApiError := { message := "refresh failed", errors := none, status := some 400 }

/-! ## Claim theorems -/

/-- C1 counterexample: with both tokens stored, a 401 on an already-retried
request leaves both tokens in the store and does not redirect — the store
is NOT left cleared and the session does NOT transition to Anonymous. -/
theorem c1_counterexample :
    storageGet (responseErrorHandler envC1 lsTokens errRetried).store accessKey = some "staleA" ∧
    storageGet (responseErrorHandler envC1 lsTokens errRetried).store refreshKey = some "R1" ∧
    (responseErrorHandler envC1 lsTokens errRetried).redirectedToLogin = false := by
  rw [handler_terminal_of_retried envC1 lsTokens errRetried rfl]
  exact ⟨rfl, rfl, rfl⟩

/-- C1 (amended): a 401 arriving on an already-retried request is terminal:
the handler leaves the token store and the session untouched (nothing is
cleared, no redirect to the login entry point), never attempts a further
refresh, and propagates the normalized form of the original request's
failure — preserving its status and its non-empty server message rather
than substituting a generic error. -/
theorem c1_post_retry_terminal (env : Env) (ls : LocalStorage) (e : AxiosError)
    (h401 : e.status = some 401) (hretry : e.config.retryFlag = true) :
    (responseErrorHandler env ls e).store = ls ∧
    (responseErrorHandler env ls e).redirectedToLogin = false ∧
    (responseErrorHandler env ls e).refreshCalls = 0 ∧
    (responseErrorHandler env ls e).outcome = Outcome.err (normalizeError e) ∧
    (normalizeError e).status = some 401 ∧
    (∀ m, e.dataMessage = some m → m ≠ "" → (normalizeError e).message = m) := by
  rw [handler_terminal_of_retried env ls e hretry]
  refine ⟨rfl, rfl, rfl, rfl, ?_, ?_⟩
  · simp [normalizeError, h401]
  · intro m hm hne
    simp [normalizeError, fallbackMessage, hm, hne]

/-- Witness for C1 at a concrete post-retry 401. -/
theorem c1_witness :
    (responseErrorHandler envC1 lsTokens errRetried).store = lsTokens ∧
    (responseErrorHandler envC1 lsTokens errRetried).redirectedToLogin = false ∧
    (normalizeError errRetried).message = "original failure" := by
  have h := c1_post_retry_terminal envC1 lsTokens errRetried rfl rfl
  exact ⟨h.1, h.2.1, h.2.2.2.2.2 "original failure" rfl (by decide)⟩

/-- C2 counterexample: with both tokens stored and a refresh call that
fails with the distinguishable normalized error `refreshErr`, the failure
propagated to the caller is the normalized ORIGINAL request failure, which
differs from the refresh error — refuting that the refresh error is
propagated. -/
theorem c2_counterexample :
    (responseErrorHandler envC1 lsTokens errFirst).outcome =
      Outcome.err { message := "original failure", errors := none, status := some 401 } ∧
    envC1.refreshOutcome "R1" = Except.error refreshErr ∧
    refreshErr ≠ ({ message := "original failure", errors := none, status := some 401 } : ApiError) := by
  refine ⟨?_, rfl, by decide⟩
  rw [handler_first401_refresh_fail envC1 lsTokens errFirst "R1" refreshErr rfl rfl rfl rfl]
  rfl

/-- C2 (amended): on a first 401 with a stored refresh token whose refresh
call fails, the handler removes both tokens from the store, redirects to
the login entry point (session invalidation), and propagates the
normalized form of the ORIGINAL request's failure; the refresh call's own
error is caught and discarded. -/
theorem c2_refresh_failure_clears_and_propagates_original
    (env : Env) (ls : LocalStorage) (e : AxiosError) (rt : String) (re : ApiError)
    (h401 : e.status = some 401) (hretry : e.config.retryFlag = false)
    (href : storageGet ls refreshKey = some rt)
    (hfail : env.refreshOutcome rt = Except.error re) :
    storageGet (responseErrorHandler env ls e).store accessKey = none ∧
    storageGet (responseErrorHandler env ls e).store refreshKey = none ∧
    (responseErrorHandler env ls e).redirectedToLogin = true ∧
    (responseErrorHandler env ls e).outcome = Outcome.err (normalizeError e) ∧
    (responseErrorHandler env ls e).refreshCalls = 1 ∧
    (responseErrorHandler env ls e).resubmits = 0 := by
  rw [handler_first401_refresh_fail env ls e rt re h401 hretry href hfail]
  exact ⟨storageGet_cleared_access ls, storageGet_cleared_refresh ls, rfl, rfl, rfl, rfl⟩

/-- Witness for C2's amended statement at a concrete failing refresh. -/
theorem c2_witness :
    storageGet (responseErrorHandler envC1 lsTokens errFirst).store accessKey = none ∧
    storageGet (responseErrorHandler envC1 lsTokens errFirst).store refreshKey = none ∧
    (responseErrorHandler envC1 lsTokens errFirst).redirectedToLogin = true := by
  have h := c2_refresh_failure_clears_and_propagates_original
    envC1 lsTokens errFirst "R1" refreshErr rfl rfl rfl rfl
  exact ⟨h.1, h.2.1, h.2.2.1⟩

/-- C3: on a single logical request's first 401 with a stored refresh
token whose refresh call succeeds, the handler issues exactly one refresh
call, persists the new access token, resubmits the original request
exactly once with the new token reattached as the bearer header and the
retried mark set, returns that resubmission's outcome as the final result,
and a request already marked retried can never trigger another refresh. -/
theorem c3_refresh_retry_exactly_once (env : Env) (ls : LocalStorage) (e : AxiosError)
    (rt access : String)
    (h401 : e.status = some 401) (hretry : e.config.retryFlag = false)
    (href : storageGet ls refreshKey = some rt)
    (hok : env.refreshOutcome rt = Except.ok access) :
    (responseErrorHandler env ls e).refreshCalls = 1 ∧
    (responseErrorHandler env ls e).resubmits = 1 ∧
    storageGet (responseErrorHandler env ls e).store accessKey = some access ∧
    (∃ req : Request,
      (responseErrorHandler env ls e).resubmittedRequest = some req ∧
      req.url = e.config.url ∧
      req.retryFlag = true ∧
      req.authHeader = some ("Bearer " ++ access) ∧
      (responseErrorHandler env ls e).outcome = env.resendOutcome req) ∧
    (∀ e2 : AxiosError, e2.config.retryFlag = true →
      (responseErrorHandler env (responseErrorHandler env ls e).store e2).refreshCalls = 0) := by
  rw [handler_first401_refresh_ok env ls e rt access h401 hretry href hok]
  refine ⟨rfl, rfl, storageGet_set_self ls accessKey access, ?_, ?_⟩
  · refine ⟨_, rfl, requestInterceptor_url _ _, ?_, ?_, rfl⟩
    · rw [requestInterceptor_retryFlag]
    · exact requestInterceptor_authHeader_stable _ _ access
        (storageGet_set_self ls accessKey access) rfl
  · intro e2 h2
    rw [handler_terminal_of_retried env _ e2 h2]

/-- Witness for C3 at a concrete successful refresh. -/
theorem c3_witness :
    (responseErrorHandler envOK lsTokens errFirst).refreshCalls = 1 ∧
    (responseErrorHandler envOK lsTokens errFirst).resubmits = 1 ∧
    storageGet (responseErrorHandler envOK lsTokens errFirst).store accessKey = some "newA" := by
  have h := c3_refresh_retry_exactly_once envOK lsTokens errFirst "R1" "newA" rfl rfl rfl rfl
  exact ⟨h.1, h.2.1, h.2.2.1⟩

/-- C5: for a request built without an Authorization header, the request
interceptor attaches the stored access token as a bearer header exactly
when one is present in the store (non-auth URLs), and passes a
login/registration URL through completely untouched, never attaching a
bearer header even when a stale token is stored. -/
theorem c5_bearer_injection (ls : LocalStorage) (req : Request)
    (hhdr : req.authHeader = none) :
    (isAuthEndpoint req.url = false →
      (requestInterceptor ls req).authHeader =
        Option.map (fun t => "Bearer " ++ t) (storageGet ls accessKey)) ∧
    (isAuthEndpoint req.url = true →
      requestInterceptor ls req = req) := by
  constructor
  · intro hna
    unfold requestInterceptor
    rw [hna]
    cases hst : storageGet ls accessKey <;> simp [hst, hhdr]
  · intro ha
    unfold requestInterceptor
    rw [ha]
    simp

/-- Witness for C5: a stale token is injected on a movies request and not
on a login request. -/
theorem c5_witness :
    (requestInterceptor lsAccessOnly
      { url := "/movies/", authHeader := none, retryFlag := false }).authHeader =
      some "Bearer staleA" ∧
    requestInterceptor lsAccessOnly
      { url := "/auth/login/", authHeader := none, retryFlag := false } =
      { url := "/auth/login/", authHeader := none, retryFlag := false } := by
  have h1 := (c5_bearer_injection lsAccessOnly
    { url := "/movies/", authHeader := none, retryFlag := false } rfl).1 (by decide)
  have h2 := (c5_bearer_injection lsAccessOnly
    { url := "/auth/login/", authHeader := none, retryFlag := false } rfl).2 (by decide)
  exact ⟨by rw [h1]; rfl, h2⟩

/-- C6: a first 401 with no stored refresh token attempts no refresh call,
removes both token keys from the store, and redirects to the login entry
point (the session-invalidated transition to Anonymous). -/
theorem c6_no_refresh_token_clears_and_redirects
    (env : Env) (ls : LocalStorage) (e : AxiosError)
    (h401 : e.status = some 401) (hretry : e.config.retryFlag = false)
    (hnone : storageGet ls refreshKey = none) :
    (responseErrorHandler env ls e).refreshCalls = 0 ∧
    (responseErrorHandler env ls e).refreshRequestSent = none ∧
    storageGet (responseErrorHandler env ls e).store accessKey = none ∧
    storageGet (responseErrorHandler env ls e).store refreshKey = none ∧
    (responseErrorHandler env ls e).redirectedToLogin = true := by
  rw [handler_first401_no_refresh_token env ls e h401 hretry hnone]
  exact ⟨rfl, rfl, storageGet_cleared_access ls, storageGet_cleared_refresh ls, rfl⟩

/-- Witness for C6 with only a stale access token stored. -/
theorem c6_witness :
    (responseErrorHandler envC1 lsAccessOnly errFirst).refreshCalls = 0 ∧
    storageGet (responseErrorHandler envC1 lsAccessOnly errFirst).store accessKey = none ∧
    (responseErrorHandler envC1 lsAccessOnly errFirst).redirectedToLogin = true := by
  have h := c6_no_refresh_token_clears_and_redirects envC1 lsAccessOnly errFirst rfl rfl rfl
  exact ⟨h.1, h.2.2.1, h.2.2.2.2⟩

/-- C10: the token-refresh URL is not a login/registration URL, so the
dedicated refresh request the handler dispatches on a first 401 passes
through the bearer-injection branch: whenever the (stale) access token is
still in the store, the refresh request carries it as a bearer
Authorization header. -/
theorem c10_refresh_request_carries_stale_bearer
    (env : Env) (ls : LocalStorage) (e : AxiosError) (rt stale : String)
    (h401 : e.status = some 401) (hretry : e.config.retryFlag = false)
    (href : storageGet ls refreshKey = some rt)
    (hacc : storageGet ls accessKey = some stale) :
    isAuthEndpoint refreshPath = false ∧
    (responseErrorHandler env ls e).refreshRequestSent =
      some { url := refreshPath, authHeader := some ("Bearer " ++ stale), retryFlag := false } := by
  have hp : isAuthEndpoint refreshPath = false := by decide
  have hreq : requestInterceptor ls { url := refreshPath, authHeader := none, retryFlag := false } =
      { url := refreshPath, authHeader := some ("Bearer " ++ stale), retryFlag := false } := by
    simp [requestInterceptor, hp, hacc]
  refine ⟨hp, ?_⟩
  cases hout : env.refreshOutcome rt with
  | ok access =>
    rw [handler_first401_refresh_ok env ls e rt access h401 hretry href hout, hreq]
  | error re =>
    rw [handler_first401_refresh_fail env ls e rt re h401 hretry href hout, hreq]

/-- Witness for C10 at a concrete first 401 with both tokens stored. -/
theorem c10_witness :
    isAuthEndpoint refreshPath = false ∧
    (responseErrorHandler envC1 lsTokens errFirst).refreshRequestSent =
      some { url := refreshPath, authHeader := some "Bearer staleA", retryFlag := false } := by
  have h := c10_refresh_request_carries_stale_bearer
    envC1 lsTokens errFirst "R1" "staleA" rfl rfl rfl rfl
  exact h

/-- C4: writing a value with a ttl into the cookie-backed store and reading
it back immediately returns the same value; once the ttl has elapsed since
the write, the read returns absent. -/
theorem c4_storage_roundtrip_and_expiry (jar : CookieJar) (key : String) (v : Json)
    (ttl now : Nat) (httl : 0 < ttl) :
    cstorageGet (cstorageSet jar key v ttl now) key now = some v ∧
    (∀ t, now + ttl ≤ t → cstorageGet (cstorageSet jar key v ttl now) key t = none) := by
  have hfind : (cstorageSet jar key v ttl now).find? (fun c => c.name == nsKey key) =
      some { name := nsKey key, value := RawPayload.wellFormed v, expiresAt := now + ttl } := by
    unfold cstorageSet cookieSet
    simp [List.find?_cons]
  constructor
  · unfold cstorageGet cookieGet
    simp only [hfind]
    rw [if_pos (show now < now + ttl by omega)]
    rfl
  · intro t ht
    unfold cstorageGet cookieGet
    simp only [hfind]
    rw [if_neg (show ¬t < now + ttl by omega)]

/-- Witness for C4: a concrete write read back at the write instant and
after the ttl elapsed. -/
theorem c4_witness :
    cstorageGet (cstorageSet [] "k" (Json.num 7) 5 100) "k" 100 = some (Json.num 7) ∧
    cstorageGet (cstorageSet [] "k" (Json.num 7) 5 100) "k" 105 = none :=
  ⟨(c4_storage_roundtrip_and_expiry [] "k" (Json.num 7) 5 100 (by decide)).1,
    (c4_storage_roundtrip_and_expiry [] "k" (Json.num 7) 5 100 (by decide)).2 105 (by decide)⟩

/-- C7: logout always ends with the session Anonymous (user cleared, so the
derived isAuthenticated is false) and both token keys removed from the
store, whatever the server-side logout call returned — including a 500
failure — and the service-level logout promise always resolves, so the
logout-call error is never surfaced to the caller. -/
theorem c7_logout_always_local (serverOutcome : Except ApiError Unit)
    (ls : LocalStorage) (st : SessionState) :
    (ctxLogout serverOutcome ls st).2.user = none ∧
    (contextValue (ctxLogout serverOutcome ls st).2).isAuthenticated = false ∧
    storageGet (ctxLogout serverOutcome ls st).1 accessKey = none ∧
    storageGet (ctxLogout serverOutcome ls st).1 refreshKey = none ∧
    (authServiceLogout serverOutcome ls).2 = Except.ok () := by
  cases serverOutcome <;>
    exact ⟨rfl, rfl, storageGet_cleared_access ls, storageGet_cleared_refresh ls, rfl⟩

/-- C8: getMovies turns a bare array of length N into the envelope
{count := N, next := null, previous := null, results := the same items in
the same order}, and passes an envelope whose fields are present through
unchanged. -/
theorem c8_getMovies_normalization :
    (∀ items : List Movie,
      getMovies (MoviesPayload.bare items) =
        { count := items.length, next := none, previous := none, results := items }) ∧
    (∀ (c : Nat) (n p : Option String) (rs : List Movie),
      getMovies (MoviesPayload.envelope (some c) n p (some rs)) =
        { count := c, next := n, previous := p, results := rs }) :=
  ⟨fun _ => rfl, fun _ _ _ _ => rfl⟩

/-- Where a user value in the session can come from: `loadUser` only sets a
user obtained from a successful profile fetch. -/
theorem loadUser_user_source (env : AuthEnv) (ls : LocalStorage) (st : SessionState)
    (u : UserProfile) (h : (loadUser env ls st).user = some u) :
    env.profileResult = Except.ok u ∨ st.user = some u := by
  unfold loadUser at h
  by_cases ha : authServiceIsAuthenticated ls = true
  · rw [if_pos ha] at h
    cases hp : env.profileResult with
    | ok p =>
      rw [hp] at h
      simp at h
      left
      rw [h]
    | error e =>
      rw [hp] at h
      simp at h
  · rw [if_neg ha] at h
    right
    exact h

/-- The provider's login can only produce a user via a successful profile
fetch, or leave the previous user in place. -/
theorem ctxLogin_user_source (env : AuthEnv) (ls : LocalStorage) (st : SessionState)
    (u : UserProfile) (h : (ctxLogin env ls st).2.user = some u) :
    env.profileResult = Except.ok u ∨ st.user = some u := by
  unfold ctxLogin at h
  cases hl : env.loginResult with
  | ok t =>
    simp only [authServiceLogin, hl] at h
    rcases loadUser_user_source env _ _ u h with hp | hu
    · exact Or.inl hp
    · exact Or.inr hu
  | error e =>
    simp only [authServiceLogin, hl] at h
    exact Or.inr h

/-- C9: the session starts Anonymous; every controller operation yields an
authenticated user only when the profile fetch succeeded with exactly that
user (otherwise the previous user is kept) — in particular neither login
nor register makes the session Authenticated without a validated profile —
and the provider's derived isAuthenticated is true exactly when the user
is non-null. -/
theorem c9_authenticated_only_via_profile :
    initialSession.user = none ∧
    (∀ (env : AuthEnv) (ls : LocalStorage) (st : SessionState) (op : AuthOp) (u : UserProfile),
      (applyOp env ls st op).2.user = some u →
      env.profileResult = Except.ok u ∨ st.user = some u) ∧
    (∀ st : SessionState,
      ((contextValue st).isAuthenticated = true) ↔ (contextValue st).user ≠ none) := by
  refine ⟨rfl, ?_, ?_⟩
  · intro env ls st op u h
    cases op with
    | bootstrap => exact loadUser_user_source env ls st u h
    | login => exact ctxLogin_user_source env ls st u h
    | register =>
      unfold applyOp ctxRegister at h
      cases hr : env.registerResult with
      | ok r =>
        simp only [authServiceRegister, hr] at h
        rcases ctxLogin_user_source env _ _ u h with hp | hu
        · exact Or.inl hp
        · exact Or.inr hu
      | error e =>
        simp only [authServiceRegister, hr] at h
        exact Or.inr h
    | logout o =>
      cases o <;> simp [applyOp, ctxLogout, authServiceLogout] at h
    | refreshProfile =>
      unfold applyOp ctxRefreshProfile at h
      by_cases ha : authServiceIsAuthenticated ls = true
      · rw [if_pos ha] at h
        cases hp : env.profileResult with
        | ok p =>
          rw [hp] at h
          simp at h
          left
          rw [h]
        | error e =>
          rw [hp] at h
          right
          exact h
      · rw [if_neg ha] at h
        right
        exact h
  · intro st
    simp [contextValue, Option.isSome_iff_ne_none]

/-- Environment for the C9 witness: a succeeding profile endpoint. -/
def envProfile : AuthEnv :=
  { loginResult := Except.ok { access := "A2", refresh := "R2" }
    registerResult := Except.error { message := "unused", errors := none, status := none }
    profileResult := Except.ok { id := 1, email := "a@b.com" } }

/-- Witness for C9: bootstrapping with a stored token and a succeeding
profile call can only have produced the profile-fetched user. -/
theorem c9_witness :
    envProfile.profileResult = Except.ok { id := 1, email := "a@b.com" } ∨
    initialSession.user = some { id := 1, email := "a@b.com" } :=
  c9_authenticated_only_via_profile.2.1 envProfile lsAccessOnly initialSession
    AuthOp.bootstrap { id := 1, email := "a@b.com" } rfl
